import Mathlib

/-!
Verification development for `geekscraper.py`.

The Python source is embedded shallowly:

* a record dictionary becomes the structure `Record`; the `url` key can be
  absent from a dict, hold Python `None`, or hold a string, so it is embedded
  as the three-way `UrlField`;
* the HTML documents consumed by the scraper are embedded at the level the
  code inspects them: a page document (`Markup`) is the list of
  `div.list-col` containers together with the optional pagination control,
  a container (`Container`) is the optional nested link, the optional model
  span (as its list of stripped strings) and the list of score-span texts;
* the HTTP transport is embedded as `Except String HttpResponse`: a network
  failure or timeout is the `error` case, and `raise_for_status` turns a
  4xx/5xx status into an error exactly as `requests` does (redirect statuses
  are resolved inside the transport by `requests` itself);
* Python exceptions are embedded as `Except String`; a `try/except` block
  becomes a `match` on the `Except` value;
* `str.isdigit` and `int()` are embedded with their disagreement intact:
  `pyIsdigit` also accepts `Numeric_Type=Digit` characters such as `"²"`
  on which `pyIntE` raises `ValueError`, so the error paths of the
  pagination scan (line 82) and of `calculate_statistics` (line 114) are
  represented; `str.strip` removes the full `str.isspace` character set;
  the XML write-read cycle fails on XML-illegal control characters and
  normalizes line ends, and the CSV reload applies the universal-newline
  translation of a text stream opened without `newline=...`.
-/

namespace GeekScraper

/-- The `url` entry of a record dictionary: missing key, key holding
Python `None`, or key holding a string. -/
inductive UrlField
  | absent
  | null
  | val (s : String)
  deriving DecidableEq, Repr

/-- Whether the dictionary carries the `url` key at all (`'url' in bench`). -/
def UrlField.isPresent : UrlField → Bool
  | .absent => false
  | _ => true

/-- Whether the `url` key holds an actual string. -/
def UrlField.isVal : UrlField → Bool
  | .val _ => true
  | _ => false

/-- One benchmark record, the dictionary built at lines 40-46 of
`geekscraper.py`. -/
structure Record where
  system : String
  model : String
  single_core : String
  multi_core : String
  url : UrlField
  deriving DecidableEq, Repr

/-- The `a` element nested in `div.col-12.col-lg-4`: its `href` attribute
(absent attribute raises `KeyError` on subscripting) and its text. -/
structure Link where
  href : Option String
  text : String
  deriving DecidableEq, Repr

/-- One `div.list-col` container as the extraction code reads it:
the optional nested link, the optional `span.list-col-model` (given by its
`stripped_strings`, `none` when `select_one` finds nothing), and the texts
of the `span.list-col-text-score` elements in document order. -/
structure Container where
  link : Option Link
  modelSpan : Option (List String)
  scores : List String
  deriving DecidableEq, Repr

/-- A parsed page document, at the granularity the scraper inspects it:
the `div.list-col` containers, and the texts of the `a.page-link` elements
of the `ul.pagination` control (`none` when `select_one` finds no control). -/
structure Markup where
  containers : List Container
  pagination : Option (List String)
  deriving DecidableEq, Repr

/-- An HTTP response: status code plus the document parsed from its body
(`BeautifulSoup(response.text, 'html.parser')` accepts any text). -/
structure HttpResponse where
  status : Nat
  doc : Markup
  deriving DecidableEq, Repr

/-- The characters Python `str.strip` removes: exactly those on which
`str.isspace` holds (ASCII whitespace including vertical tab and form
feed, the file/group/record/unit separators, NEL, NBSP, and the Unicode
space separators). -/
def pyWhitespaceChar (c : Char) : Bool :=
  c = ' ' || c = '\t' || c = '\n' || c = '\x0b' || c = '\x0c' || c = '\r' ||
  ('\x1c' ≤ c && c ≤ '\x1f') || c = '\x85' || c = '\xa0' ||
  c = '\u1680' || ('\u2000' ≤ c && c ≤ '\u200a') || c = '\u2028' || c = '\u2029' ||
  c = '\u202f' || c = '\u205f' || c = '\u3000'

/-- Python `str.strip`: drop leading and trailing whitespace. -/
def pyStrip (s : String) : String :=
  ⟨((s.data.dropWhile pyWhitespaceChar).reverse.dropWhile pyWhitespaceChar).reverse⟩

/-- Characters of Unicode `Numeric_Type=Digit` that are not decimal
digits: `str.isdigit` accepts them but `int()` raises `ValueError` on
them.  The table lists the principal such characters (superscript and
subscript digits, Ethiopic digits, circled, parenthesized, full-stop and
dingbat-circled digits); the claims depend on the split between this class
and the decimal digits, not on the table's exhaustive extent. -/
def pyDigitOnlyChar (c : Char) : Bool :=
  c = '¹' || c = '²' || c = '³' ||
  c = '\u2070' || ('\u2074' ≤ c && c ≤ '\u2079') ||
  ('\u2080' ≤ c && c ≤ '\u2089') ||
  ('\u1369' ≤ c && c ≤ '\u1371') ||
  ('\u2460' ≤ c && c ≤ '\u2468') || ('\u2474' ≤ c && c ≤ '\u247c') ||
  ('\u2488' ≤ c && c ≤ '\u2490') ||
  ('\u2776' ≤ c && c ≤ '\u277e') || ('\u2780' ≤ c && c ≤ '\u2788') ||
  ('\u278a' ≤ c && c ≤ '\u2792')

/-- Python `str.isdigit`: nonempty and every character of `Numeric_Type`
`Decimal` or `Digit`.  Decimal digits are modelled by the ASCII range;
non-ASCII decimal scripts, which `isdigit` and `int()` both accept alike,
are not distinguished by any claim. -/
def pyIsdigit (s : String) : Bool :=
  !s.data.isEmpty && s.data.all (fun c => c.isDigit || pyDigitOnlyChar c)

/-- The numeric value of an all-decimal string; meaningful only behind the
decimal check of `pyIntE`. -/
def pyInt (s : String) : Nat :=
  s.data.foldl (fun n c => 10 * n + (c.toNat - 48)) 0

/-- Python `int()` on the text this program feeds it (stripped, no sign,
no underscores — every call site guards with `isdigit`): succeeds exactly
on nonempty all-decimal strings and raises `ValueError` otherwise — in
particular on text that passes `str.isdigit` through `Numeric_Type=Digit`
characters such as `"²"`. -/
def pyIntE (s : String) : Except String Nat :=
  if !s.data.isEmpty && s.data.all Char.isDigit then .ok (pyInt s) else .error "ValueError"

/-- Sequential traversal of a list under `Option`, the shape of a Python
list comprehension that can fail. -/
def mapOption {α β : Type} (f : α → Option β) : List α → Option (List β)
  | [] => some []
  | a :: as =>
    match f a, mapOption f as with
    | some b, some bs => some (b :: bs)
    | _, _ => none

/-- Sequential traversal of a list under `Except`, the shape of a Python
loop or comprehension whose body can raise: the first exception aborts the
traversal. -/
def mapExcept {ε α β : Type} (f : α → Except ε β) : List α → Except ε (List β)
  | [] => .ok []
  | a :: as =>
    match f a with
    | .error e => .error e
    | .ok b =>
      match mapExcept f as with
      | .error e => .error e
      | .ok bs => .ok (b :: bs)

/-- Universal-newline translation, applied by Python text streams opened
without `newline=...` and by the XML parser's end-of-line normalization:
`CRLF` and lone `CR` both become `LF`. -/
def normCR : Bool → List Char → List Char
  | _, [] => []
  | prevCR, c :: rest =>
    if c = '\r' then '\n' :: normCR true rest
    else if c = '\n' then (if prevCR then normCR false rest else '\n' :: normCR false rest)
    else c :: normCR false rest

/-- Universal-newline translation on a string. -/
def universal_newlines (s : String) : String :=
  ⟨normCR false s.data⟩

/-- The text of `scores[0]`, stripped; `"N/A"` when there is no score span
(line 37). -/
def score0 (c : Container) : String :=
  match c.scores with
  | [] => "N/A"
  | s :: _ => pyStrip s

/-- The text of `scores[1]`, stripped; `"N/A"` when there is at most one
score span (line 38). -/
def score1 (c : Container) : String :=
  match c.scores with
  | _ :: s :: _ => pyStrip s
  | _ => "N/A"

/-- The body of the per-container `try` block (lines 30-46).  Subscripting a
link without `href` raises `KeyError`; calling `stripped_strings` on the
`None` returned by `select_one('span.list-col-model')` raises
`AttributeError`.  Either exception makes the container contribute nothing. -/
def extractContainerE (c : Container) : Except String Record :=
  match c.link with
  | some l =>
    match l.href with
    | none => .error "KeyError"
    | some h =>
      match c.modelSpan with
      | none => .error "AttributeError"
      | some parts =>
        .ok { system := pyStrip l.text
              model := " ".intercalate parts
              single_core := score0 c
              multi_core := score1 c
              url := .val ("https://browser.geekbench.com" ++ h) }
  | none =>
    match c.modelSpan with
    | none => .error "AttributeError"
    | some parts =>
      .ok { system := "Unknown"
            model := " ".intercalate parts
            single_core := score0 c
            multi_core := score1 c
            url := .null }

/-- The `for result in soup.select('div.list-col')` loop (lines 27-49): a
container whose extraction raises is skipped, the others append their record
in order. -/
def containerLoop (cs : List Container) : List Record :=
  cs.filterMap (fun c => (extractContainerE c).toOption)

/-- The response check `response.raise_for_status()`: `requests` raises
`HTTPError` exactly for status codes 400-599. -/
def raise_for_status (r : HttpResponse) : Except String HttpResponse :=
  if 400 ≤ r.status ∧ r.status < 600 then .error "HTTPError" else .ok r

/-- A `requests.get` followed by `raise_for_status`: either the transport
itself failed, or the response status was an HTTP error, or we have the
response. -/
def fetch_checked (t : Except String HttpResponse) : Except String HttpResponse :=
  match t with
  | .error e => .error e
  | .ok r => raise_for_status r

/-- The page fetcher `parse_page` (lines 16-59), as a function of the
transport's outcome for the page URL.  The outer `try/except` converts any
failure before the loop into an empty result list; the loop itself cannot
raise.  The `verbose` printing and timing are observational only and are not
embedded. -/
def parse_page (t : Except String HttpResponse) : List Record :=
  match fetch_checked t with
  | .error _ => []
  | .ok r => containerLoop r.doc.containers

/-- Pagination discovery (lines 76-82): filter the `a.page-link` texts of
`ul.pagination` to those whose stripped text passes `isdigit` and take the
maximum of their `int` values; `1` when there is no control or no such
link.  `int(a.text)` ignores surrounding whitespace, so its value is the
value of the stripped text — and it raises `ValueError` on an
`isdigit`-passing non-decimal text such as `"²"`, which the `max` generator
propagates out of the scan. -/
def total_pages_of : Option (List String) → Except String Int
  | none => .ok 1
  | some links =>
    match mapExcept (fun t =>
        match pyIntE (pyStrip t) with
        | .error e => Except.error e
        | .ok n => Except.ok (n : Int))
      (links.filter fun t => pyIsdigit (pyStrip t)) with
    | .error e => .error e
    | .ok [] => .ok 1
    | .ok (v :: vs) => .ok (vs.foldl max v)

/-- Line 84, `pages_to_fetch = min(total_pages, max_pages) if max_pages else
total_pages`.  Python truthiness: both `None` and `0` take the `else`
branch. -/
def pages_to_fetch_of (total : Int) (max_pages : Option Int) : Int :=
  match max_pages with
  | some m => if m ≠ 0 then min total m else total
  | none => total

/-- The page numbers whose URLs are built at lines 90-92: page 1 always
(the search URL itself), then `range(2, pages_to_fetch + 1)`. -/
def page_nums (pages_to_fetch : Int) : List Int :=
  1 :: (List.range (pages_to_fetch - 1).toNat).map (fun k : Nat => (k : Int) + 2)

/-- The behaviour of the outside world for one run: the outcome of the
discovery fetch of the search URL (line 72), and the outcome of the fetch
`parse_page` performs for each page number (page 1 is fetched again by
`parse_page`, independently of the discovery fetch). -/
structure ScrapeEnv where
  firstFetch : Except String HttpResponse
  pageFetch : Int → Except String HttpResponse

/-- The coordinator `parse_geekbench` (lines 61-109).  The outer
`try/except` turns a discovery failure — a failed or error-status first
fetch, or a `ValueError` from the pagination scan — into an empty list,
before any page fetch is dispatched.  The thread pool
only affects the order in which per-page results are appended, never their
content; the merge is embedded in submission order, and the number of
workers is therefore not a parameter. -/
def parse_geekbench (env : ScrapeEnv) (max_pages : Option Int) : List Record :=
  match fetch_checked env.firstFetch with
  | .error _ => []
  | .ok resp =>
    match total_pages_of resp.doc.pagination with
    | .error _ => []
    | .ok total_pages =>
      (page_nums (pages_to_fetch_of total_pages max_pages)).flatMap
        (fun i => parse_page (env.pageFetch i))

/-- Minimum of a nonempty list (Python `min`; the `[]` case is unreachable
behind the nonemptiness guard in `calculate_statistics`). -/
def listMin : List Nat → Nat
  | [] => 0
  | x :: xs => xs.foldl min x

/-- Maximum of a nonempty list (Python `max`; the `[]` case is unreachable
behind the nonemptiness guard in `calculate_statistics`). -/
def listMax : List Nat → Nat
  | [] => 0
  | x :: xs => xs.foldl max x

/-- Floor of a rational. -/
def qfloor (q : Rat) : Int :=
  Int.fdiv q.num q.den

/-- Python `round(x, 2)`: round to two decimal places, ties to even.
(The reference computes on binary floats; the embedding rounds the exact
rational.) -/
def pyRound2 (q : Rat) : Rat :=
  let x := q * 100
  let f := qfloor x
  let r := x - (f : Rat)
  let n : Int :=
    if r < 1 / 2 then f
    else if 1 / 2 < r then f + 1
    else if f % 2 = 0 then f else f + 1
  (n : Rat) / 100

/-- The statistics mapping returned by `calculate_statistics` when the
filtered score list is nonempty (lines 125-133). -/
structure Stats where
  mean_single_core : Rat
  mean_multi_core : Rat
  min_single_core : Nat
  max_single_core : Nat
  min_multi_core : Nat
  max_multi_core : Nat
  sample_count : Nat
  deriving DecidableEq, Repr

/-- The `valid_scores` comprehension (lines 113-117): the `isdigit` filter
is evaluated per record, then `int()` is applied to both score fields; an
`isdigit`-passing non-decimal field (such as `"²"`) makes `int()` raise
`ValueError` out of the comprehension. -/
def valid_scores (benchmarks : List Record) : Except String (List (Nat × Nat)) :=
  mapExcept
    (fun b =>
      match pyIntE b.single_core with
      | .error e => .error e
      | .ok sv =>
        match pyIntE b.multi_core with
        | .error e => .error e
        | .ok mv => .ok (sv, mv))
    (benchmarks.filter fun b => pyIsdigit b.single_core && pyIsdigit b.multi_core)

/-- The statistics computation `calculate_statistics` (lines 111-133);
`.ok none` embeds the empty mapping returned when no record qualifies, and
`.error` the `ValueError` that an `isdigit`-passing non-decimal score field
propagates to the caller. -/
def calculate_statistics (benchmarks : List Record) : Except String (Option Stats) :=
  match valid_scores benchmarks with
  | .error e => .error e
  | .ok [] => .ok none
  | .ok (v :: vt) =>
    let single_scores := (v :: vt).map Prod.fst
    let multi_scores := (v :: vt).map Prod.snd
    .ok (some
      { mean_single_core := pyRound2 ((single_scores.sum : Rat) / (single_scores.length : Rat))
        mean_multi_core := pyRound2 ((multi_scores.sum : Rat) / (multi_scores.length : Rat))
        min_single_core := listMin single_scores
        max_single_core := listMax single_scores
        min_multi_core := listMin multi_scores
        max_multi_core := listMax multi_scores
        sample_count := (v :: vt).length })

/-- A JSON value stored for one dictionary entry: `null` or a string (the
only value shapes `geekscraper.py` ever writes). -/
inductive JField
  | null
  | str (s : String)
  deriving DecidableEq, Repr

/-- The JSON object `json.dump` writes for one record: its keys in
insertion order; the `url` key appears exactly when the dictionary carries
it. -/
def record_to_json (r : Record) : List (String × JField) :=
  [("system", .str r.system), ("model", .str r.model),
   ("single_core", .str r.single_core), ("multi_core", .str r.multi_core)] ++
  (match r.url with
   | .absent => []
   | .null => [("url", .null)]
   | .val s => [("url", .str s)])

/-- The JSON file written by `create_json_output` (lines 152-156): the
array of record objects.  `json.dump`/`json.load` are faithful on arrays of
string-or-null objects, so the file is embedded as the value itself. -/
def create_json_output (benchmarks : List Record) : List (List (String × JField)) :=
  benchmarks.map record_to_json

/-- Reading one loaded JSON dictionary back as a `Record`.  `json.load`
itself returns the stored value unchanged; this function expresses the
dictionaries the serializer writes as `Record`s again (Python dict equality
is field-wise equality including presence of the `url` key). -/
def parse_json_record (d : List (String × JField)) : Option Record :=
  match List.lookup "system" d, List.lookup "model" d,
        List.lookup "single_core" d, List.lookup "multi_core" d with
  | some (.str sys), some (.str mdl), some (.str sc), some (.str mc) =>
    some { system := sys, model := mdl, single_core := sc, multi_core := mc,
           url := match List.lookup "url" d with
                  | none => .absent
                  | some .null => .null
                  | some (.str u) => .val u }
  | _, _, _, _ => none

/-- The `.json` branch of `parse_input_file` (lines 189-190), expressed on
the record dictionaries of the loaded array. -/
def parse_json_file (ds : List (List (String × JField))) : Option (List Record) :=
  mapOption parse_json_record ds

/-- The children of one `<benchmark>` element as `create_xml_output` builds
them (lines 138-145): tag and text; the `<url>` child is created whenever
the dictionary carries the `url` key, with text `None` for a `None` url. -/
def record_to_xml (r : Record) : List (String × Option String) :=
  [("system", some r.system), ("model", some r.model),
   ("single_core_score", some r.single_core), ("multi_core_score", some r.multi_core)] ++
  (match r.url with
   | .absent => []
   | .null => [("url", none)]
   | .val s => [("url", some s)])

/-- The tree `create_xml_output` serializes (lines 135-150): one child list
per record under the `<benchmarks>` root. -/
def create_xml_output (benchmarks : List Record) : List (List (String × Option String)) :=
  benchmarks.map record_to_xml

/-- Characters legal in an XML 1.0 document: tab, LF, CR and everything
from space up, except the non-characters `U+FFFE`/`U+FFFF` (surrogates
cannot occur in a `Char`). -/
def xml_valid_char (c : Char) : Bool :=
  c = '\t' || c = '\n' || c = '\r' ||
  (' ' ≤ c && c ≠ '\uFFFE' && c ≠ '\uFFFF')

/-- The effect of `ET.tostring` followed by `ET.parse` on the written
tree.  `_escape_cdata` escapes only `&<>`, so an XML-illegal control
character (e.g. `\x0b`) in a text is written raw and the reparse raises
`ParseError`.  On a legal document: an element whose text is `None` or
`""` is written as an empty element and reparses to text `None`, the
parser applies XML end-of-line normalization (`CRLF` and lone `CR` become
`LF`), and every other text round-trips unchanged. -/
def xml_write_read (doc : List (List (String × Option String))) :
    Except String (List (List (String × Option String))) :=
  if doc.all (fun cs => cs.all fun p => (p.2.getD "").data.all xml_valid_char) then
    .ok (doc.map fun cs => cs.map fun p =>
      (p.1, p.2.bind fun s => if s = "" then none else some (universal_newlines s)))
  else .error "ParseError"

/-- The loosely-typed dictionary the `.xml` branch of `parse_input_file`
builds (lines 194-203): every key is present, and each value is a string or
Python `None`. -/
structure LRecord where
  system : Option String
  model : Option String
  single_core : Option String
  multi_core : Option String
  url : Option String
  deriving DecidableEq, Repr

/-- One `<benchmark>` element read back by `parse_input_file` (lines
196-200): `find(tag)` is the first child with that tag; a missing child
falls back to the field default, a present child contributes its text,
which may be `None`. -/
def xml_item_to_record (cs : List (String × Option String)) : LRecord :=
  { system := (List.lookup "system" cs).getD (some "Unknown")
    model := (List.lookup "model" cs).getD (some "Unknown")
    single_core := (List.lookup "single_core_score" cs).getD (some "N/A")
    multi_core := (List.lookup "multi_core_score" cs).getD (some "N/A")
    url := (List.lookup "url" cs).getD none }

/-- The `.xml` branch of `parse_input_file` (lines 191-203). -/
def parse_xml_file (doc : List (List (String × Option String))) : List LRecord :=
  doc.map xml_item_to_record

/-- Python dict equality between a `Record` and a loaded XML dictionary: a
record without the `url` key never equals a dictionary that has one (the
XML loader always puts the key in), and a string field never equals
`None`. -/
def recordEqL (r : Record) (l : LRecord) : Bool :=
  (l.system == some r.system) && (l.model == some r.model) &&
  (l.single_core == some r.single_core) && (l.multi_core == some r.multi_core) &&
  (match r.url with
   | .absent => false
   | .null => l.url == none
   | .val s => l.url == some s)

/-- Pointwise dict equality of a record list and a loaded XML list. -/
def recordsEqL : List Record → List LRecord → Bool
  | [], [] => true
  | r :: rs, l :: ls => recordEqL r l && recordsEqL rs ls
  | _, _ => false

/-- The fixed CSV field names of line 167. -/
def csv_base_fields : List String :=
  ["system", "model", "single_core", "multi_core"]

/-- Lines 167-169: the `url` column is appended exactly when the collection
is nonempty and its FIRST record carries the `url` key. -/
def csv_fieldnames (benchmarks : List Record) : List String :=
  match benchmarks with
  | [] => csv_base_fields
  | b :: _ => if b.url.isPresent then csv_base_fields ++ ["url"] else csv_base_fields

/-- The cell `csv.DictWriter` writes for a record under one field name:
`rowdict.get(key, restval)` with `restval = None`, and `None` is written as
the empty cell. -/
def record_value (r : Record) (k : String) : String :=
  if k = "system" then r.system
  else if k = "model" then r.model
  else if k = "single_core" then r.single_core
  else if k = "multi_core" then r.multi_core
  else if k = "url" then (match r.url with | .val s => s | _ => "")
  else ""

/-- One `DictWriter.writerow`: raises `ValueError` when the dictionary has
a key outside the field names (the only possible extra key here is `url`),
otherwise produces one cell per field name. -/
def dict_to_row (fieldnames : List String) (r : Record) : Except String (List String) :=
  if r.url.isPresent ∧ "url" ∉ fieldnames then .error "ValueError"
  else .ok (fieldnames.map (record_value r))

/-- The CSV file written by `create_csv_output` (lines 165-175): header row
plus one row per record; the whole write raises if any `writerow` does.
Cell quoting by the `csv` module is faithful, so the file is embedded at
the level of header and cell lists. -/
def create_csv_output (benchmarks : List Record) :
    Except String (List String × List (List String)) :=
  match mapExcept (dict_to_row (csv_fieldnames benchmarks)) benchmarks with
  | .error e => .error e
  | .ok rows => .ok (csv_fieldnames benchmarks, rows)

/-- The `.csv` branch of `parse_input_file` (lines 204-207):
`csv.DictReader` pairs the header with each row; every value read is a
string, and the `url` key exists exactly when the file has a `url` column.
The file is opened without `newline=...`, so the text stream applies
universal-newline translation to the cell contents: `CRLF` and lone `CR`
inside a quoted field reload as `LF`.  (The files this program writes
always carry the four base columns, so the defaults for a missing base
column are unreachable on round trips.) -/
def parse_csv_file (f : List String × List (List String)) : List Record :=
  f.2.map fun row =>
    { system := universal_newlines ((List.lookup "system" (f.1.zip row)).getD "")
      model := universal_newlines ((List.lookup "model" (f.1.zip row)).getD "")
      single_core := universal_newlines ((List.lookup "single_core" (f.1.zip row)).getD "")
      multi_core := universal_newlines ((List.lookup "multi_core" (f.1.zip row)).getD "")
      url := match List.lookup "url" (f.1.zip row) with
             | some s => .val (universal_newlines s)
             | none => .absent }

/-- Spec wording of C4, for comparison with the code: pages fetched are
`min(discovered_total, cap)`, a cap of none means all pages, a cap below 1
is treated as 1. -/
def claimed_pages_fetched (total : Int) (cap : Option Int) : Int :=
  match cap with
  | none => total
  | some c => min total (max c 1)

/-- Spec wording of C5, for comparison with the code: the maximum positive
integer among the pagination link texts; `1` when there is no control or no
link with a positive integer text. -/
def claimed_total_pages : Option (List String) → Int
  | none => 1
  | some links =>
    match ((links.filter fun t => pyIsdigit (pyStrip t) && pyInt (pyStrip t) != 0).map
            fun t => (pyInt (pyStrip t) : Int)) with
    | [] => 1
    | v :: vs => vs.foldl max v

/-- A text whose characters survive the XML write-read cycle unchanged:
legal XML characters with no carriage return (which end-of-line
normalization would rewrite). -/
def xml_text_safe (s : String) : Bool :=
  s.data.all fun c => xml_valid_char c && !(c = '\r')

/-- The condition under which one record survives the XML write-read cycle
unchanged: no text field is empty, every text is XML-safe, and the url is
`None` or a nonempty XML-safe string. -/
def xmlOk (r : Record) : Bool :=
  (!(r.system == "")) && xml_text_safe r.system &&
  (!(r.model == "")) && xml_text_safe r.model &&
  (!(r.single_core == "")) && xml_text_safe r.single_core &&
  (!(r.multi_core == "")) && xml_text_safe r.multi_core &&
  (match r.url with
   | .absent => false
   | .null => true
   | .val s => (!(s == "")) && xml_text_safe s)

/-- A string without carriage returns. -/
def no_cr (s : String) : Bool :=
  s.data.all fun c => !(c = '\r')

/-- The condition under which one record's cells survive the CSV reload's
universal-newline translation unchanged: no field contains a carriage
return. -/
def csvOk (r : Record) : Bool :=
  no_cr r.system && no_cr r.model && no_cr r.single_core && no_cr r.multi_core &&
  (match r.url with
   | .val s => no_cr s
   | _ => true)

theorem except_toOption_eq_some {ε α : Type} (x : Except ε α) (a : α) :
    x.toOption = some a ↔ x = .ok a := by
  cases x <;> simp [Except.toOption]

theorem mem_containerLoop {cs : List Container} {r : Record} :
    r ∈ containerLoop cs ↔ ∃ c ∈ cs, extractContainerE c = .ok r := by
  simp [containerLoop, List.mem_filterMap, except_toOption_eq_some]

theorem parse_page_ok_status (resp : HttpResponse)
    (h : ¬(400 ≤ resp.status ∧ resp.status < 600)) :
    parse_page (.ok resp) = containerLoop resp.doc.containers := by
  simp [parse_page, fetch_checked, raise_for_status, h]

theorem extract_ok_shape {c : Container} {r : Record}
    (h : extractContainerE c = .ok r) :
    r.url ≠ .absent ∧ (c.link = none → r.url = .null) ∧
    r.single_core = score0 c ∧ r.multi_core = score1 c := by
  rcases c with ⟨link, ms, scores⟩
  cases link with
  | none =>
    cases ms with
    | none => simp [extractContainerE] at h
    | some parts =>
      simp [extractContainerE] at h
      subst h
      simp
  | some l =>
    cases hh : l.href with
    | none => simp [extractContainerE, hh] at h
    | some u =>
      cases ms with
      | none => simp [extractContainerE, hh] at h
      | some parts =>
        simp [extractContainerE, hh] at h
        subst h
        simp

/-- C1 counterexample: a `301` response with no `Location` header is
delivered by `requests` as the final response (`resolve_redirects` acts
only when the header is present), `raise_for_status` raises only on
400-599, and the body is parsed into records — a non-2xx status that does
NOT degrade to the empty list. -/
theorem non_error_status_counterexample :
    parse_page (.ok ⟨301, ⟨[⟨none, some ["M"], ["100", "200"]⟩], none⟩⟩) =
      [⟨"Unknown", "M", "100", "200", .null⟩] ∧
    ¬(200 ≤ (301 : Nat) ∧ (301 : Nat) ≤ 299) ∧
    [(⟨"Unknown", "M", "100", "200", .null⟩ : Record)] ≠ ([] : List Record) := by
  decide

/-- C1 amended: `parse_page` never raises (it is a total function into
record lists); a transport failure (network failure, timeout), or an HTTP
error status 400-599 — the statuses `raise_for_status` raises on — makes
it return the empty list for that page; but a response delivered with any
other status (2xx, or a non-redirected 3xx such as a `Location`-less 301)
is not treated as a failure: its body is parsed into records normally. -/
theorem parse_page_failure_degrades :
    (∀ e : String, parse_page (.error e) = []) ∧
    (∀ resp : HttpResponse, 400 ≤ resp.status ∧ resp.status < 600 →
      parse_page (.ok resp) = []) ∧
    (∀ resp : HttpResponse, ¬(400 ≤ resp.status ∧ resp.status < 600) →
      parse_page (.ok resp) = containerLoop resp.doc.containers) := by
  refine ⟨?_, ?_, ?_⟩
  · intro e
    rfl
  · intro resp h
    simp [parse_page, fetch_checked, raise_for_status, h]
  · intro resp h
    exact parse_page_ok_status resp h

/-- Witness for C1 amended: a timed-out fetch and a 404 response, each
over a page whose markup would produce a record, both yield the empty
list; a 204 response over the same markup is parsed into that record. -/
theorem parse_page_failure_degrades_witness :
    parse_page (.error "ConnectionError") = [] ∧
    parse_page (.ok ⟨404, ⟨[⟨none, some ["M"], ["100", "200"]⟩], none⟩⟩) = [] ∧
    parse_page (.ok ⟨204, ⟨[⟨none, some ["M"], ["100", "200"]⟩], none⟩⟩) =
      containerLoop [⟨none, some ["M"], ["100", "200"]⟩] :=
  ⟨parse_page_failure_degrades.1 "ConnectionError",
   parse_page_failure_degrades.2.1 ⟨404, ⟨[⟨none, some ["M"], ["100", "200"]⟩], none⟩⟩
     (by constructor <;> decide),
   parse_page_failure_degrades.2.2 ⟨204, ⟨[⟨none, some ["M"], ["100", "200"]⟩], none⟩⟩
     (by decide)⟩

/-- C2: extraction is fault-isolated per container: a container whose
extraction raises contributes nothing while the rest of the page is kept,
and a page with one well-formed and one malformed container yields exactly
the one record of the well-formed container, in either order. -/
theorem parse_page_container_isolation
    (st : Nat) (pag : Option (List String)) (pre post : List Container)
    (bad good : Container) (r : Record)
    (hst : st < 400)
    (hbad : ∃ e, extractContainerE bad = .error e)
    (hgood : extractContainerE good = .ok r) :
    parse_page (.ok ⟨st, ⟨pre ++ bad :: post, pag⟩⟩) =
      parse_page (.ok ⟨st, ⟨pre, pag⟩⟩) ++ parse_page (.ok ⟨st, ⟨post, pag⟩⟩) ∧
    parse_page (.ok ⟨st, ⟨[good, bad], pag⟩⟩) = [r] ∧
    parse_page (.ok ⟨st, ⟨[bad, good], pag⟩⟩) = [r] := by
  obtain ⟨e, he⟩ := hbad
  have hok : ¬(400 ≤ st ∧ st < 600) := by omega
  rw [parse_page_ok_status _ hok, parse_page_ok_status _ hok,
      parse_page_ok_status _ hok, parse_page_ok_status _ hok,
      parse_page_ok_status _ hok]
  refine ⟨?_, ?_, ?_⟩ <;>
    simp [containerLoop, List.filterMap_append, List.filterMap_cons, he, hgood,
      Except.toOption]

/-- Witness for C2: a malformed container (link without `href`, raising
`KeyError`) next to a well-formed one yields exactly the well-formed
record. -/
theorem parse_page_container_isolation_witness :
    parse_page (.ok ⟨200, ⟨[⟨some ⟨none, "X"⟩, some ["M"], []⟩,
        ⟨none, some ["Mod"], ["100", "200"]⟩], none⟩⟩) =
      [⟨"Unknown", "Mod", "100", "200", .null⟩] :=
  (parse_page_container_isolation 200 none [] []
    ⟨some ⟨none, "X"⟩, some ["M"], []⟩ ⟨none, some ["Mod"], ["100", "200"]⟩
    ⟨"Unknown", "Mod", "100", "200", .null⟩
    (by decide) ⟨"KeyError", rfl⟩ rfl).2.2

/-- C3: when the discovery stage fails — the first-page fetch errors or
returns an HTTP error status, or the pagination scan raises — the
coordinator `parse_geekbench` returns the empty collection, never a
partial one and never a distinguished error value (no page fetch has been
dispatched yet when the failure is caught). -/
theorem parse_geekbench_discovery_failure
    (env : ScrapeEnv) (mp : Option Int) (e : String) :
    (fetch_checked env.firstFetch = .error e → parse_geekbench env mp = []) ∧
    (∀ resp : HttpResponse, fetch_checked env.firstFetch = .ok resp →
      total_pages_of resp.doc.pagination = .error e → parse_geekbench env mp = []) := by
  constructor
  · intro h
    simp [parse_geekbench, h]
  · intro resp hf ht
    simp [parse_geekbench, hf, ht]

/-- Witness for C3: a timed-out discovery fetch, a discovery fetch that
returns status 500, and a pagination scan that raises on a superscript
link text, each over an environment where every page fetch would return a
record, all yield the empty collection. -/
theorem parse_geekbench_discovery_failure_witness :
    parse_geekbench
      ⟨.error "Timeout",
       fun _ => .ok ⟨200, ⟨[⟨none, some ["M"], ["100", "200"]⟩], none⟩⟩⟩ none = [] ∧
    parse_geekbench
      ⟨.ok ⟨500, ⟨[], some ["1", "2"]⟩⟩,
       fun _ => .ok ⟨200, ⟨[⟨none, some ["M"], ["100", "200"]⟩], none⟩⟩⟩ (some 5) = [] ∧
    parse_geekbench
      ⟨.ok ⟨200, ⟨[], some ["²"]⟩⟩,
       fun _ => .ok ⟨200, ⟨[⟨none, some ["M"], ["100", "200"]⟩], none⟩⟩⟩ none = [] :=
  ⟨(parse_geekbench_discovery_failure _ none "Timeout").1 rfl,
   (parse_geekbench_discovery_failure _ (some 5) "HTTPError").1 rfl,
   (parse_geekbench_discovery_failure _ none "ValueError").2
     ⟨200, ⟨[], some ["²"]⟩⟩ rfl rfl⟩

/-- C10: every record dictionary built by `parse_page` carries all five
keys (it is a full `Record`); the `url` key in particular is always
present, and is set to `None` rather than omitted when the container's link
element is absent. -/
theorem parse_page_url_always_present :
    (∀ (t : Except String HttpResponse) (r : Record),
      r ∈ parse_page t → r.url ≠ .absent) ∧
    (∀ (c : Container) (r : Record),
      extractContainerE c = .ok r → c.link = none → r.url = .null) := by
  constructor
  · intro t r hr
    cases hfc : fetch_checked t with
    | error e => rw [parse_page, hfc] at hr; cases hr
    | ok resp =>
      rw [parse_page, hfc] at hr
      obtain ⟨c, -, hc⟩ := mem_containerLoop.mp hr
      exact (extract_ok_shape hc).1
  · intro c r hc hlink
    exact (extract_ok_shape hc).2.1 hlink

/-- Witness for C10: a record scraped from a container with no link element
has its url key set to `None`, not absent. -/
theorem parse_page_url_always_present_witness :
    (Record.mk "Unknown" "Mod" "100" "200" .null).url ≠ .absent ∧
    (Record.mk "Unknown" "Mod" "100" "200" .null).url = .null :=
  ⟨parse_page_url_always_present.1
     (.ok ⟨200, ⟨[⟨none, some ["Mod"], ["100", "200"]⟩], none⟩⟩) _ (by decide),
   parse_page_url_always_present.2 ⟨none, some ["Mod"], ["100", "200"]⟩ _
     rfl rfl⟩

theorem page_nums_length (p : Int) : (page_nums p).length = 1 + (p - 1).toNat := by
  rw [page_nums, List.length_cons, List.length_map, List.length_range]
  omega

theorem init_le_foldl_max (v : Int) (vs : List Int) : v ≤ vs.foldl max v := by
  induction vs generalizing v with
  | nil => exact le_refl v
  | cons w ws ih => exact le_trans (le_max_left v w) (ih (max v w))

theorem le_foldl_max {x : Int} {v : Int} {vs : List Int} (hx : x = v ∨ x ∈ vs) :
    x ≤ vs.foldl max v := by
  induction vs generalizing v with
  | nil =>
    rcases hx with rfl | hx
    · exact le_refl x
    · cases hx
  | cons w ws ih =>
    simp only [List.foldl_cons]
    rcases hx with rfl | hx
    · exact le_trans (le_max_left x w) (init_le_foldl_max (max x w) ws)
    · rcases List.mem_cons.mp hx with rfl | hx
      · exact le_trans (le_max_right v x) (init_le_foldl_max (max v x) ws)
      · exact ih (Or.inr hx)

theorem foldl_max_mem (v : Int) (vs : List Int) :
    vs.foldl max v = v ∨ vs.foldl max v ∈ vs := by
  induction vs generalizing v with
  | nil => simp
  | cons w ws ih =>
    simp only [List.foldl_cons]
    rcases ih (max v w) with h | h
    · rcases le_total v w with hvw | hvw
      · right
        rw [h, max_eq_right hvw]
        exact List.mem_cons_self w ws
      · left
        rw [h, max_eq_left hvw]
    · right
      exact List.mem_cons_of_mem w h

/-- Whether an exception value is a success. -/
def exceptOk {ε α : Type} : Except ε α → Bool
  | .ok _ => true
  | .error _ => false

theorem pyIntE_ok_val {s : String} (h : exceptOk (pyIntE s) = true) :
    pyIntE s = .ok (pyInt s) := by
  unfold pyIntE at h ⊢
  by_cases hc : (!s.data.isEmpty && s.data.all Char.isDigit) = true
  · rw [if_pos hc]
  · rw [if_neg hc] at h
    simp [exceptOk] at h

theorem pyIntE_not_ok {s : String} (h : exceptOk (pyIntE s) = false) :
    pyIntE s = .error "ValueError" := by
  unfold pyIntE at h ⊢
  by_cases hc : (!s.data.isEmpty && s.data.all Char.isDigit) = true
  · rw [if_pos hc] at h
    simp [exceptOk] at h
  · rw [if_neg hc]

theorem mapExcept_ok_of {ε α β : Type} (f : α → Except ε β) (g : α → β) (l : List α)
    (h : ∀ x ∈ l, f x = .ok (g x)) : mapExcept f l = .ok (l.map g) := by
  induction l with
  | nil => rfl
  | cons a as ih =>
    simp only [mapExcept, h a (List.mem_cons_self a as),
      ih fun x hx => h x (List.mem_cons_of_mem a hx), List.map_cons]

theorem mapExcept_error_of_mem {ε α β : Type} (f : α → Except ε β) {l : List α} {x : α}
    (hx : x ∈ l) (hfx : ∃ e0, f x = .error e0) : ∃ e, mapExcept f l = .error e := by
  induction l with
  | nil => cases hx
  | cons a as ih =>
    rcases List.mem_cons.mp hx with rfl | hx2
    · obtain ⟨e0, he0⟩ := hfx
      exact ⟨e0, by simp [mapExcept, he0]⟩
    · cases hfa : f a with
      | error e => exact ⟨e, by simp [mapExcept, hfa]⟩
      | ok b =>
        obtain ⟨e, he⟩ := ih hx2
        exact ⟨e, by simp [mapExcept, hfa, he]⟩

/-- C4 counterexample: with pagination links `"1","2","3"` and a
caller-supplied cap of `0`, the code fetches all three pages (Python `0` is
falsy, so the cap is ignored), while the claim's "a provided cap below 1 is
treated as 1" predicts a single page. -/
theorem pages_fetched_cap_zero_counterexample :
    total_pages_of (some ["1", "2", "3"]) = .ok 3 ∧
    page_nums (pages_to_fetch_of 3 (some 0)) = [1, 2, 3] ∧
    claimed_pages_fetched 3 (some 0) = 1 :=
  ⟨rfl, by decide, by decide⟩

/-- C4 amended: page 1 is always fetched (its URL is seeded into the list
before the `range` loop), so the number of pages fetched is
`max 1 (min discovered_total cap)` for caps `≥ 1` and
`max 1 discovered_total` for a cap of none; a cap of `0` is falsy and
behaves as no cap; a negative cap fetches exactly page 1.  With links
`"1","2","3"` and cap 2 exactly pages 1 and 2 are fetched, never page 3.
The `max 1` matters: a discovered total of 0 (reachable, see the C5
counterexample) still fetches page 1. -/
theorem pages_fetched_amended (total : Int) :
    ((page_nums (pages_to_fetch_of total none)).length : Int) = max 1 total ∧
    ((page_nums (pages_to_fetch_of total (some 0))).length : Int) = max 1 total ∧
    (∀ c : Int, 1 ≤ c →
      ((page_nums (pages_to_fetch_of total (some c))).length : Int) = max 1 (min total c)) ∧
    (∀ c : Int, c < 0 → page_nums (pages_to_fetch_of total (some c)) = [1]) ∧
    page_nums (pages_to_fetch_of 3 (some 2)) = [1, 2] := by
  refine ⟨?_, ?_, ?_, ?_, by decide⟩
  · rw [page_nums_length]
    simp [pages_to_fetch_of]
    omega
  · rw [page_nums_length]
    simp [pages_to_fetch_of]
    omega
  · intro c hc
    rw [page_nums_length]
    have hne : c ≠ 0 := by omega
    simp [pages_to_fetch_of, hne]
    omega
  · intro c hc
    have hne : c ≠ 0 := by omega
    have hp : pages_to_fetch_of total (some c) = min total c := by
      simp [pages_to_fetch_of, hne]
    have hz : (min total c - 1).toNat = 0 := by omega
    simp [page_nums, hp, hz]

/-- Witness for C4 amended: at a discovered total of 3, no cap fetches 3
pages and cap 2 fetches pages 1 and 2 only; at a discovered total of 0,
page 1 is still fetched; cap -1 fetches page 1. -/
theorem pages_fetched_amended_witness :
    ((page_nums (pages_to_fetch_of 3 none)).length : Int) = max 1 3 ∧
    ((page_nums (pages_to_fetch_of 0 none)).length : Int) = max 1 0 ∧
    ((page_nums (pages_to_fetch_of 3 (some 2))).length : Int) = max 1 (min 3 2) ∧
    page_nums (pages_to_fetch_of 3 (some (-1))) = [1] :=
  ⟨(pages_fetched_amended 3).1,
   (pages_fetched_amended 0).1,
   (pages_fetched_amended 3).2.2.1 2 (by decide),
   (pages_fetched_amended 3).2.2.2.1 (-1) (by decide)⟩

/-- C5 counterexample: a pagination control whose only link text is `"0"`.
`"0".isdigit()` holds, so the code computes `max(int("0")) = 0` and reports
a total page count of 0, while the claim (maximum positive integer; 1 when
there is none) predicts 1. -/
theorem total_pages_zero_link_counterexample :
    total_pages_of (some ["0"]) = .ok 0 ∧ claimed_total_pages (some ["0"]) = 1 :=
  ⟨rfl, by decide⟩

/-- C5 amended: when every `isdigit`-passing link text also `int`-parses,
pagination discovery returns the maximum nonnegative integer value of the
digit links (realised by one of them and bounding all of them, so a `"0"`
link can drive the total to 0), and 1 with no control or no digit link;
but a link text that passes `isdigit` without being decimal (such as
`"²"`) makes the scan raise `ValueError` instead of returning a total,
which aborts the run. -/
theorem total_pages_characterization :
    total_pages_of none = .ok 1 ∧
    (∀ links, (∀ t ∈ links, pyIsdigit (pyStrip t) = false) →
      total_pages_of (some links) = .ok 1) ∧
    (∀ links,
      (∀ t ∈ links, pyIsdigit (pyStrip t) = true → exceptOk (pyIntE (pyStrip t)) = true) →
      (∃ t ∈ links, pyIsdigit (pyStrip t) = true) →
      ∃ t ∈ links, pyIsdigit (pyStrip t) = true ∧
        total_pages_of (some links) = .ok (pyInt (pyStrip t) : Int) ∧
        (∀ u ∈ links, pyIsdigit (pyStrip u) = true →
          pyInt (pyStrip u) ≤ pyInt (pyStrip t))) ∧
    (∀ links, (∃ t ∈ links, pyIsdigit (pyStrip t) = true ∧
        exceptOk (pyIntE (pyStrip t)) = false) →
      ∃ e, total_pages_of (some links) = .error e) := by
  refine ⟨rfl, ?_, ?_, ?_⟩
  · intro links h
    have hf : links.filter (fun t => pyIsdigit (pyStrip t)) = [] := by
      simp [List.filter_eq_nil_iff]
      exact fun t ht => by simp [h t ht]
    simp [total_pages_of, hf, mapExcept]
  · intro links hparse hex
    obtain ⟨t0, ht0, hd0⟩ := hex
    have hok : mapExcept (fun t =>
        match pyIntE (pyStrip t) with
        | .error e => Except.error e
        | .ok n => Except.ok (n : Int))
        (links.filter fun t => pyIsdigit (pyStrip t)) =
        .ok ((links.filter fun t => pyIsdigit (pyStrip t)).map
          fun t => (pyInt (pyStrip t) : Int)) := by
      refine mapExcept_ok_of _ _ _ fun x hx => ?_
      have hxf := List.mem_filter.mp hx
      rw [pyIntE_ok_val (hparse x hxf.1 hxf.2)]
    have hmem0 : (pyInt (pyStrip t0) : Int) ∈
        ((links.filter fun t => pyIsdigit (pyStrip t)).map
          fun t => (pyInt (pyStrip t) : Int)) :=
      List.mem_map_of_mem _ (List.mem_filter.mpr ⟨ht0, hd0⟩)
    rcases hfl : ((links.filter fun t => pyIsdigit (pyStrip t)).map
        fun t => (pyInt (pyStrip t) : Int)) with _ | ⟨v, vs⟩
    · rw [hfl] at hmem0
      cases hmem0
    · have hval : total_pages_of (some links) = .ok (vs.foldl max v) := by
        simp only [total_pages_of, hok, hfl]
      have hin : vs.foldl max v ∈ (v :: vs) := by
        rcases foldl_max_mem v vs with hm | hm
        · rw [hm]
          exact List.mem_cons_self v vs
        · exact List.mem_cons_of_mem v hm
      rw [← hfl] at hin
      obtain ⟨u, hu, huv⟩ := List.mem_map.mp hin
      have hud := List.mem_filter.mp hu
      refine ⟨u, hud.1, hud.2, by rw [hval, huv], ?_⟩
      intro w hw hwd
      have hwm : (pyInt (pyStrip w) : Int) ∈
          ((links.filter fun t => pyIsdigit (pyStrip t)).map
            fun t => (pyInt (pyStrip t) : Int)) :=
        List.mem_map_of_mem _ (List.mem_filter.mpr ⟨hw, hwd⟩)
      rw [hfl] at hwm
      have hle : (pyInt (pyStrip w) : Int) ≤ vs.foldl max v := by
        rcases List.mem_cons.mp hwm with heq | hmm
        · exact heq ▸ le_foldl_max (Or.inl rfl)
        · exact le_foldl_max (Or.inr hmm)
      rw [← huv] at hle
      exact_mod_cast hle
  · intro links hex
    obtain ⟨t0, ht0, hd0, hbad⟩ := hex
    have hmem : t0 ∈ links.filter (fun t => pyIsdigit (pyStrip t)) :=
      List.mem_filter.mpr ⟨ht0, hd0⟩
    obtain ⟨e, he⟩ := mapExcept_error_of_mem
      (fun t =>
        match pyIntE (pyStrip t) with
        | .error e => Except.error e
        | .ok n => Except.ok (n : Int))
      hmem ⟨"ValueError", by simp only [pyIntE_not_ok hbad]⟩
    exact ⟨e, by simp [total_pages_of, he]⟩

/-- Witness for C5 amended: a control with links `"2"`, `"5"` and `"x"`
has total 5, realised by link `"5"` and bounding link `"2"`; a control
with only `"x"` gives 1; a control with the superscript link `"²"` makes
the scan raise. -/
theorem total_pages_characterization_witness :
    total_pages_of none = .ok 1 ∧
    total_pages_of (some ["x"]) = .ok 1 ∧
    (∃ t ∈ ["2", "5", "x"], pyIsdigit (pyStrip t) = true ∧
      total_pages_of (some ["2", "5", "x"]) = .ok (pyInt (pyStrip t) : Int) ∧
      (∀ u ∈ ["2", "5", "x"], pyIsdigit (pyStrip u) = true →
        pyInt (pyStrip u) ≤ pyInt (pyStrip t))) ∧
    (∃ e, total_pages_of (some ["²"]) = .error e) :=
  ⟨total_pages_characterization.1,
   total_pages_characterization.2.1 ["x"] (by decide),
   total_pages_characterization.2.2.1 ["2", "5", "x"] (by decide)
     ⟨"2", by decide, by decide⟩,
   total_pages_characterization.2.2.2 ["²"] ⟨"²", by decide, by decide, by decide⟩⟩

/-- C6 counterexample: a record whose `single_core` is the superscript
digit `"²"` passes the `isdigit` filter, and `int("²")` then raises
`ValueError` inside `calculate_statistics`, so the computation errors
instead of excluding the record. -/
theorem statistics_value_error_counterexample :
    pyIsdigit "²" = true ∧
    calculate_statistics [⟨"A", "B", "²", "1", .null⟩] = .error "ValueError" :=
  ⟨by decide, rfl⟩

/-- C6 amended: when every record that passes the `isdigit` filter carries
decimal score fields, `calculate_statistics` scores exactly the filtered
records — `"N/A"` and other non-`isdigit` text are excluded without error,
the empty mapping is returned exactly when no record qualifies, and
`sample_count` counts the qualifying records; but a record whose score
field passes `isdigit` without being decimal (such as `"²"`) makes
`int()` raise `ValueError`, which propagates to the caller. -/
theorem calculate_statistics_digit_filter (bs : List Record) :
    ((∀ b ∈ bs.filter (fun b => pyIsdigit b.single_core && pyIsdigit b.multi_core),
        exceptOk (pyIntE b.single_core) = true ∧ exceptOk (pyIntE b.multi_core) = true) →
      valid_scores bs =
        .ok ((bs.filter fun b => pyIsdigit b.single_core && pyIsdigit b.multi_core).map
          fun b => (pyInt b.single_core, pyInt b.multi_core)) ∧
      (calculate_statistics bs).map (Option.map Stats.sample_count) =
        .ok (if bs.countP (fun b => pyIsdigit b.single_core && pyIsdigit b.multi_core) = 0
             then none
             else some (bs.countP fun b => pyIsdigit b.single_core && pyIsdigit b.multi_core))) ∧
    ((∃ b ∈ bs.filter (fun b => pyIsdigit b.single_core && pyIsdigit b.multi_core),
        exceptOk (pyIntE b.single_core) = false ∨ exceptOk (pyIntE b.multi_core) = false) →
      ∃ e, calculate_statistics bs = .error e) := by
  constructor
  · intro hparse
    have h1 : valid_scores bs =
        .ok ((bs.filter fun b => pyIsdigit b.single_core && pyIsdigit b.multi_core).map
          fun b => (pyInt b.single_core, pyInt b.multi_core)) := by
      refine mapExcept_ok_of _ _ _ fun b hb => ?_
      obtain ⟨hs, hm⟩ := hparse b hb
      rw [pyIntE_ok_val hs, pyIntE_ok_val hm]
    refine ⟨h1, ?_⟩
    have hlen : ((bs.filter fun b => pyIsdigit b.single_core && pyIsdigit b.multi_core).map
        (fun b => (pyInt b.single_core, pyInt b.multi_core))).length =
        bs.countP (fun b => pyIsdigit b.single_core && pyIsdigit b.multi_core) := by
      rw [List.length_map, ← List.countP_eq_length_filter]
    rcases hfm : ((bs.filter fun b => pyIsdigit b.single_core && pyIsdigit b.multi_core).map
        fun b => (pyInt b.single_core, pyInt b.multi_core)) with _ | ⟨v, vt⟩
    · rw [hfm] at h1 hlen
      simp only [List.length_nil] at hlen
      simp [calculate_statistics, h1, ← hlen, Except.map]
    · rw [hfm] at h1 hlen
      simp only [List.length_cons] at hlen
      have hne : bs.countP (fun b => pyIsdigit b.single_core && pyIsdigit b.multi_core) ≠ 0 := by
        omega
      rw [if_neg hne, ← hlen]
      simp [calculate_statistics, h1, Except.map]
  · intro hex
    obtain ⟨b, hbmem, hbad⟩ := hex
    have hrow : ∃ e0,
        (fun b =>
          match pyIntE b.single_core with
          | .error e => Except.error e
          | .ok sv =>
            match pyIntE b.multi_core with
            | .error e => Except.error e
            | .ok mv => Except.ok (sv, mv)) b = (.error e0 : Except String (Nat × Nat)) := by
      rcases hbad with h | h
      · exact ⟨"ValueError", by simp [pyIntE_not_ok h]⟩
      · cases hs : pyIntE b.single_core with
        | error e => exact ⟨e, by simp [hs]⟩
        | ok n => exact ⟨"ValueError", by simp [hs, pyIntE_not_ok h]⟩
    obtain ⟨e, he⟩ := mapExcept_error_of_mem
      ((fun b =>
        match pyIntE b.single_core with
        | .error e => Except.error e
        | .ok sv =>
          match pyIntE b.multi_core with
          | .error e => Except.error e
          | .ok mv => Except.ok (sv, mv)) : Record → Except String (Nat × Nat))
      hbmem hrow
    exact ⟨e, by simp [calculate_statistics, valid_scores, he]⟩

/-- Witness for C6 amended: a collection with one fully numeric record and
one `"N/A"` record scores exactly the numeric one with sample count 1; a
collection with a superscript score field errors. -/
theorem calculate_statistics_digit_filter_witness :
    (valid_scores [⟨"A", "B", "100", "200", .null⟩, ⟨"C", "D", "N/A", "7", .null⟩] =
      .ok (([(⟨"A", "B", "100", "200", .null⟩ : Record), ⟨"C", "D", "N/A", "7", .null⟩].filter
          fun b => pyIsdigit b.single_core && pyIsdigit b.multi_core).map
        fun b => (pyInt b.single_core, pyInt b.multi_core)) ∧
     (calculate_statistics [⟨"A", "B", "100", "200", .null⟩, ⟨"C", "D", "N/A", "7", .null⟩]).map
        (Option.map Stats.sample_count) =
      .ok (if ([(⟨"A", "B", "100", "200", .null⟩ : Record), ⟨"C", "D", "N/A", "7", .null⟩].countP
            fun b => pyIsdigit b.single_core && pyIsdigit b.multi_core) = 0
           then none
           else some ([(⟨"A", "B", "100", "200", .null⟩ : Record), ⟨"C", "D", "N/A", "7", .null⟩].countP
            fun b => pyIsdigit b.single_core && pyIsdigit b.multi_core))) ∧
    (∃ e, calculate_statistics [⟨"A", "B", "²", "1", .null⟩] = .error e) :=
  ⟨(calculate_statistics_digit_filter
      [⟨"A", "B", "100", "200", .null⟩, ⟨"C", "D", "N/A", "7", .null⟩]).1 (by decide),
   (calculate_statistics_digit_filter [⟨"A", "B", "²", "1", .null⟩]).2
     ⟨⟨"A", "B", "²", "1", .null⟩, by decide, Or.inl (by decide)⟩⟩

theorem json_record_roundtrip (r : Record) :
    parse_json_record (record_to_json r) = some r := by
  obtain ⟨s, m, sc, mc, u⟩ := r
  cases u <;> rfl

theorem json_roundtrip (bs : List Record) :
    parse_json_file (create_json_output bs) = some bs := by
  induction bs with
  | nil => rfl
  | cons b bt ih =>
    simp only [parse_json_file, create_json_output, List.map_cons, mapOption,
      json_record_roundtrip] at ih ⊢
    rw [ih]

theorem normCR_id {l : List Char} (h : ∀ c ∈ l, ¬(c = '\r')) : normCR false l = l := by
  induction l with
  | nil => rfl
  | cons c rest ih =>
    have hc := h c (List.mem_cons_self c rest)
    have ih2 := ih fun x hx => h x (List.mem_cons_of_mem _ hx)
    by_cases hn : c = '\n'
    · subst hn
      simp [normCR, ih2]
    · simp [normCR, hc, hn, ih2]

theorem universal_newlines_id {s : String} (h : no_cr s = true) :
    universal_newlines s = s := by
  obtain ⟨data⟩ := s
  simp only [no_cr, List.all_eq_true] at h
  simp only [universal_newlines]
  congr 1
  exact normCR_id fun c hc => by simpa using h c hc

theorem xml_text_safe_no_cr {s : String} (h : xml_text_safe s = true) :
    no_cr s = true := by
  simp only [xml_text_safe, no_cr, List.all_eq_true, Bool.and_eq_true] at h ⊢
  exact fun c hc => (h c hc).2

theorem xml_text_safe_valid {s : String} (h : xml_text_safe s = true) :
    s.data.all xml_valid_char = true := by
  simp only [xml_text_safe, List.all_eq_true, Bool.and_eq_true] at h ⊢
  exact fun c hc => (h c hc).1

theorem xml_record_roundtrip (r : Record) (h : xmlOk r = true) :
    recordEqL r (xml_item_to_record
      ((record_to_xml r).map
        (fun p => (p.1, p.2.bind fun s =>
          if s = "" then none else some (universal_newlines s))))) = true := by
  obtain ⟨sys, mdl, sc, mc, u⟩ := r
  simp only [xmlOk, Bool.and_eq_true, Bool.not_eq_true', beq_eq_false_iff_ne, ne_eq] at h
  cases u with
  | absent => simp at h
  | null =>
    obtain ⟨⟨⟨⟨⟨⟨⟨⟨h1, h2⟩, h3⟩, h4⟩, h5⟩, h6⟩, h7⟩, h8⟩, -⟩ := h
    simp [record_to_xml, xml_item_to_record, recordEqL, List.lookup, h1, h3, h5, h7,
      universal_newlines_id (xml_text_safe_no_cr h2),
      universal_newlines_id (xml_text_safe_no_cr h4),
      universal_newlines_id (xml_text_safe_no_cr h6),
      universal_newlines_id (xml_text_safe_no_cr h8)]
  | val uu =>
    obtain ⟨⟨⟨⟨⟨⟨⟨⟨h1, h2⟩, h3⟩, h4⟩, h5⟩, h6⟩, h7⟩, h8⟩, hu⟩ := h
    rw [Bool.and_eq_true] at hu
    obtain ⟨hu1, hu2⟩ := hu
    simp only [Bool.not_eq_true', beq_eq_false_iff_ne, ne_eq] at hu1
    simp [record_to_xml, xml_item_to_record, recordEqL, List.lookup, h1, h3, h5, h7, hu1,
      universal_newlines_id (xml_text_safe_no_cr h2),
      universal_newlines_id (xml_text_safe_no_cr h4),
      universal_newlines_id (xml_text_safe_no_cr h6),
      universal_newlines_id (xml_text_safe_no_cr h8),
      universal_newlines_id (xml_text_safe_no_cr hu2)]

theorem record_xml_valid (r : Record) (h : xmlOk r = true) :
    (record_to_xml r).all (fun p => (p.2.getD "").data.all xml_valid_char) = true := by
  obtain ⟨sys, mdl, sc, mc, u⟩ := r
  simp only [xmlOk, Bool.and_eq_true] at h
  cases u with
  | absent => simp at h
  | null =>
    obtain ⟨⟨⟨⟨⟨⟨⟨⟨-, h2⟩, -⟩, h4⟩, -⟩, h6⟩, -⟩, h8⟩, -⟩ := h
    simp [record_to_xml, xml_text_safe_valid h2, xml_text_safe_valid h4,
      xml_text_safe_valid h6, xml_text_safe_valid h8]
  | val uu =>
    obtain ⟨⟨⟨⟨⟨⟨⟨⟨-, h2⟩, -⟩, h4⟩, -⟩, h6⟩, -⟩, h8⟩, hu⟩ := h
    rw [Bool.and_eq_true] at hu
    simp [record_to_xml, xml_text_safe_valid h2, xml_text_safe_valid h4,
      xml_text_safe_valid h6, xml_text_safe_valid h8, xml_text_safe_valid hu.2]

theorem xml_payload_roundtrip (bs : List Record) (h : ∀ r ∈ bs, xmlOk r = true) :
    recordsEqL bs (parse_xml_file ((create_xml_output bs).map
      (fun cs => cs.map fun p =>
        (p.1, p.2.bind fun s =>
          if s = "" then none else some (universal_newlines s))))) = true := by
  induction bs with
  | nil => rfl
  | cons b bt ih =>
    simp only [create_xml_output, parse_xml_file, List.map_cons, recordsEqL,
      Bool.and_eq_true] at ih ⊢
    exact ⟨xml_record_roundtrip b (h b (List.mem_cons_self b bt)),
           ih fun r hr => h r (List.mem_cons_of_mem b hr)⟩

theorem xml_roundtrip_all (bs : List Record) (h : ∀ r ∈ bs, xmlOk r = true) :
    (xml_write_read (create_xml_output bs)).map
      (fun d => recordsEqL bs (parse_xml_file d)) = .ok true := by
  have hvalid : (create_xml_output bs).all
      (fun cs => cs.all fun p => (p.2.getD "").data.all xml_valid_char) = true := by
    rw [List.all_eq_true]
    intro cs hcs
    obtain ⟨r, hr, rfl⟩ := List.mem_map.mp hcs
    exact record_xml_valid r (h r hr)
  rw [xml_write_read, if_pos hvalid]
  simp only [Except.map]
  rw [xml_payload_roundtrip bs h]

theorem dict_to_row_base (r : Record) (h : r.url = .absent) :
    dict_to_row csv_base_fields r =
      .ok [r.system, r.model, r.single_core, r.multi_core] := by
  simp [dict_to_row, h, UrlField.isPresent, csv_base_fields, record_value]

theorem csv_rows_base (bs : List Record) (h : ∀ r ∈ bs, r.url = .absent) :
    mapExcept (dict_to_row csv_base_fields) bs =
      .ok (bs.map fun r => [r.system, r.model, r.single_core, r.multi_core]) := by
  induction bs with
  | nil => rfl
  | cons b bt ih =>
    have hrest : ∀ r ∈ bt, r.url = .absent := fun r hr => h r (List.mem_cons_of_mem b hr)
    simp only [mapExcept, dict_to_row_base b (h b (List.mem_cons_self b bt)),
      ih hrest, List.map_cons]

theorem parse_csv_base (bs : List Record) (h : ∀ r ∈ bs, r.url = .absent)
    (hcr : ∀ r ∈ bs, csvOk r = true) :
    parse_csv_file (csv_base_fields,
      bs.map fun r => [r.system, r.model, r.single_core, r.multi_core]) = bs := by
  induction bs with
  | nil => rfl
  | cons b bt ih =>
    have hb := h b (List.mem_cons_self b bt)
    have hcb := hcr b (List.mem_cons_self b bt)
    have hrest : ∀ r ∈ bt, r.url = .absent := fun r hr => h r (List.mem_cons_of_mem b hr)
    have hcrest : ∀ r ∈ bt, csvOk r = true := fun r hr => hcr r (List.mem_cons_of_mem b hr)
    simp only [parse_csv_file, List.map_cons] at ih ⊢
    rw [ih hrest hcrest]
    obtain ⟨sy, m, sc, mc, u⟩ := b
    simp only at hb
    subst hb
    simp only [csvOk, Bool.and_eq_true] at hcb
    obtain ⟨⟨⟨⟨c1, c2⟩, c3⟩, c4⟩, -⟩ := hcb
    simp [csv_base_fields, List.lookup, universal_newlines_id c1,
      universal_newlines_id c2, universal_newlines_id c3, universal_newlines_id c4]

theorem dict_to_row_url (r : Record) (s' : String) (h : r.url = .val s') :
    dict_to_row (csv_base_fields ++ ["url"]) r =
      .ok [r.system, r.model, r.single_core, r.multi_core, s'] := by
  simp [dict_to_row, h, UrlField.isPresent, csv_base_fields, record_value]

theorem csv_rows_url (bs : List Record) (h : ∀ r ∈ bs, ∃ s, r.url = .val s) :
    mapExcept (dict_to_row (csv_base_fields ++ ["url"])) bs =
      .ok (bs.map fun r =>
        [r.system, r.model, r.single_core, r.multi_core, record_value r "url"]) := by
  induction bs with
  | nil => rfl
  | cons b bt ih =>
    obtain ⟨s', hs'⟩ := h b (List.mem_cons_self b bt)
    have hrest : ∀ r ∈ bt, ∃ s, r.url = .val s := fun r hr => h r (List.mem_cons_of_mem b hr)
    have hval : record_value b "url" = s' := by simp [record_value, hs']
    simp only [mapExcept, dict_to_row_url b s' hs', ih hrest, List.map_cons, hval]

theorem parse_csv_url (bs : List Record) (h : ∀ r ∈ bs, ∃ s, r.url = .val s)
    (hcr : ∀ r ∈ bs, csvOk r = true) :
    parse_csv_file (csv_base_fields ++ ["url"],
      bs.map fun r =>
        [r.system, r.model, r.single_core, r.multi_core, record_value r "url"]) = bs := by
  induction bs with
  | nil => rfl
  | cons b bt ih =>
    obtain ⟨s', hs'⟩ := h b (List.mem_cons_self b bt)
    have hcb := hcr b (List.mem_cons_self b bt)
    have hrest : ∀ r ∈ bt, ∃ s, r.url = .val s := fun r hr => h r (List.mem_cons_of_mem b hr)
    have hcrest : ∀ r ∈ bt, csvOk r = true := fun r hr => hcr r (List.mem_cons_of_mem b hr)
    simp only [parse_csv_file, List.map_cons] at ih ⊢
    rw [ih hrest hcrest]
    obtain ⟨sy, m, sc, mc, u⟩ := b
    simp only at hs'
    subst hs'
    simp only [csvOk, Bool.and_eq_true] at hcb
    obtain ⟨⟨⟨⟨c1, c2⟩, c3⟩, c4⟩, c5⟩ := hcb
    simp [csv_base_fields, record_value, List.lookup, universal_newlines_id c1,
      universal_newlines_id c2, universal_newlines_id c3, universal_newlines_id c4,
      universal_newlines_id c5]

/-- C7 counterexample: a record with a `None` url (the normal scrape output
for a container with no link) does not survive the CSV round trip: the
`url` column is present (the first record carries the key), `None` is
written as the empty cell, and `DictReader` reads it back as the empty
string, not `None`. -/
theorem csv_null_url_roundtrip_counterexample :
    (create_csv_output [⟨"A", "B", "100", "200", .null⟩]).toOption.map parse_csv_file =
      some [⟨"A", "B", "100", "200", .val ""⟩] ∧
    [(⟨"A", "B", "100", "200", .val ""⟩ : Record)] ≠ [⟨"A", "B", "100", "200", .null⟩] := by
  decide

/-- C7 amended: JSON round-trips for every record collection.  XML
round-trips (as Python dict equality) whenever every record's four text
fields are nonempty XML-safe strings (legal XML characters, no carriage
return) and its url is `None` or such a nonempty string: outside that, an
absent url reloads as `None`, an empty text reloads as `None`, an
XML-illegal control character is written raw and makes the reparse fail,
and a carriage return is normalized away.  CSV round-trips when no record
carries the url key or every record's url is a string, and no field
contains a carriage return: a `None` url reloads as the empty string, and
carriage returns reload as line feeds. -/
theorem serialization_roundtrip_amended (bs : List Record) :
    parse_json_file (create_json_output bs) = some bs ∧
    ((∀ r ∈ bs, xmlOk r = true) →
      (xml_write_read (create_xml_output bs)).map
        (fun d => recordsEqL bs (parse_xml_file d)) = .ok true) ∧
    (((∀ r ∈ bs, r.url = .absent) ∨ (∀ r ∈ bs, ∃ s, r.url = .val s)) →
      (∀ r ∈ bs, csvOk r = true) →
      (create_csv_output bs).toOption.map parse_csv_file = some bs) := by
  refine ⟨json_roundtrip bs, xml_roundtrip_all bs, ?_⟩
  rintro (habs | hval) hcr
  · have hfns : csv_fieldnames bs = csv_base_fields := by
      cases bs with
      | nil => rfl
      | cons b bt =>
        simp [csv_fieldnames, habs b (List.mem_cons_self b bt), UrlField.isPresent]
    rw [create_csv_output, hfns, csv_rows_base bs habs]
    simp [Except.toOption, parse_csv_base bs habs hcr]
  · cases bs with
    | nil => rfl
    | cons b bt =>
      have hfns : csv_fieldnames (b :: bt) = csv_base_fields ++ ["url"] := by
        obtain ⟨s', hs'⟩ := hval b (List.mem_cons_self b bt)
        simp [csv_fieldnames, hs', UrlField.isPresent]
      rw [create_csv_output, hfns, csv_rows_url _ hval]
      exact congrArg some (parse_csv_url _ hval hcr)

/-- Witness for C7 amended: a one-record collection with nonempty
XML-safe fields and a string url round-trips through all three formats. -/
theorem serialization_roundtrip_amended_witness :
    parse_json_file (create_json_output [⟨"A", "B", "1", "2", .val "u"⟩]) =
      some [⟨"A", "B", "1", "2", .val "u"⟩] ∧
    (xml_write_read (create_xml_output [⟨"A", "B", "1", "2", .val "u"⟩])).map
      (fun d => recordsEqL [⟨"A", "B", "1", "2", .val "u"⟩] (parse_xml_file d)) = .ok true ∧
    (create_csv_output [⟨"A", "B", "1", "2", .val "u"⟩]).toOption.map parse_csv_file =
      some [⟨"A", "B", "1", "2", .val "u"⟩] :=
  ⟨(serialization_roundtrip_amended [⟨"A", "B", "1", "2", .val "u"⟩]).1,
   (serialization_roundtrip_amended [⟨"A", "B", "1", "2", .val "u"⟩]).2.1 (by decide),
   (serialization_roundtrip_amended [⟨"A", "B", "1", "2", .val "u"⟩]).2.2
     (Or.inr (by
       intro r hr
       simp only [List.mem_singleton] at hr
       subst hr
       exact ⟨"u", rfl⟩))
     (by decide)⟩

/-- C8 counterexample: the extraction code copies the stripped text of a
score span without validating it, so a container whose score span reads
`"abc"` produces a record with `single_core = "abc"`, which is neither an
all-digit string nor the sentinel `"N/A"`. -/
theorem scores_digit_counterexample :
    parse_page (.ok ⟨200, ⟨[⟨none, some ["M"], ["abc"]⟩], none⟩⟩) =
      [⟨"Unknown", "M", "abc", "N/A", .null⟩] ∧
    pyIsdigit "abc" = false ∧ "abc" ≠ "N/A" := by
  decide

theorem fetch_checked_ok {t : Except String HttpResponse} {r : HttpResponse}
    (h : fetch_checked t = .ok r) : t = .ok r := by
  cases t with
  | error e => simp [fetch_checked] at h
  | ok x =>
    have h2 : raise_for_status x = .ok r := h
    unfold raise_for_status at h2
    by_cases hc : 400 ≤ x.status ∧ x.status < 600
    · rw [if_pos hc] at h2
      cases h2
    · rw [if_neg hc] at h2
      cases h2
      rfl

/-- C8 amended: each score field of a record produced by `parse_page` is
the whitespace-stripped text of the corresponding score span of its
container, or exactly `"N/A"` when that span is absent; in particular,
whenever every score span's stripped text on the page is an all-digit
string, every record satisfies the digits-or-`"N/A"` invariant as
stated. -/
theorem scores_span_text_or_na_amended (resp : HttpResponse) (r : Record)
    (hmem : r ∈ parse_page (.ok resp)) :
    (∃ c ∈ resp.doc.containers,
      ((c.scores = [] ∧ r.single_core = "N/A") ∨
        (∃ s rest, c.scores = s :: rest ∧ r.single_core = pyStrip s)) ∧
      ((c.scores.length ≤ 1 ∧ r.multi_core = "N/A") ∨
        (∃ s0 s1 rest, c.scores = s0 :: s1 :: rest ∧ r.multi_core = pyStrip s1))) ∧
    ((∀ c ∈ resp.doc.containers, ∀ s ∈ c.scores, pyIsdigit (pyStrip s) = true) →
      (pyIsdigit r.single_core || (r.single_core == "N/A")) = true ∧
      (pyIsdigit r.multi_core || (r.multi_core == "N/A")) = true) := by
  cases hfc : fetch_checked (.ok resp) with
  | error e =>
    rw [parse_page, hfc] at hmem
    cases hmem
  | ok resp2 =>
    have hr2 : resp = resp2 := by
      injection fetch_checked_ok hfc
    subst hr2
    rw [parse_page, hfc] at hmem
    obtain ⟨c, hcmem, hc⟩ := mem_containerLoop.mp hmem
    obtain ⟨-, -, hs, hm⟩ := extract_ok_shape hc
    constructor
    · refine ⟨c, hcmem, ?_, ?_⟩
      · rcases hsc : c.scores with _ | ⟨s0, rest⟩
        · exact Or.inl ⟨rfl, by rw [hs]; simp [score0, hsc]⟩
        · exact Or.inr ⟨s0, rest, rfl, by rw [hs]; simp [score0, hsc]⟩
      · rcases hsc : c.scores with _ | ⟨s0, _ | ⟨s1, rest⟩⟩
        · exact Or.inl ⟨by simp, by rw [hm]; simp [score1, hsc]⟩
        · exact Or.inl ⟨by simp, by rw [hm]; simp [score1, hsc]⟩
        · exact Or.inr ⟨s0, s1, rest, rfl, by rw [hm]; simp [score1, hsc]⟩
    · intro hdig
      constructor
      · rw [hs]
        rcases hsc : c.scores with _ | ⟨s0, rest⟩
        · simp [score0, hsc]
        · have hd := hdig c hcmem s0 (by rw [hsc]; exact List.mem_cons_self _ _)
          simp [score0, hsc, hd]
      · rw [hm]
        rcases hsc : c.scores with _ | ⟨s0, _ | ⟨s1, rest⟩⟩
        · simp [score1, hsc]
        · simp [score1, hsc]
        · have hd := hdig c hcmem s1
            (by rw [hsc]; exact List.mem_cons_of_mem _ (List.mem_cons_self _ _))
          simp [score1, hsc, hd]

/-- Witness for C8 amended: a page with one container whose single score
span reads `" 123 "` produces the record with `single_core = "123"` (the
stripped span text) and `multi_core = "N/A"` (absent second span), and the
digits-or-`"N/A"` check passes for it. -/
theorem scores_span_text_or_na_amended_witness :
    (∃ c ∈ ({ containers := [⟨none, some ["M"], [" 123 "]⟩], pagination := none } : Markup).containers,
      ((c.scores = [] ∧ (Record.mk "Unknown" "M" "123" "N/A" .null).single_core = "N/A") ∨
        (∃ s rest, c.scores = s :: rest ∧
          (Record.mk "Unknown" "M" "123" "N/A" .null).single_core = pyStrip s)) ∧
      ((c.scores.length ≤ 1 ∧ (Record.mk "Unknown" "M" "123" "N/A" .null).multi_core = "N/A") ∨
        (∃ s0 s1 rest, c.scores = s0 :: s1 :: rest ∧
          (Record.mk "Unknown" "M" "123" "N/A" .null).multi_core = pyStrip s1))) ∧
    ((∀ c ∈ ({ containers := [⟨none, some ["M"], [" 123 "]⟩], pagination := none } : Markup).containers,
        ∀ s ∈ c.scores, pyIsdigit (pyStrip s) = true) →
      (pyIsdigit (Record.mk "Unknown" "M" "123" "N/A" .null).single_core ||
        ((Record.mk "Unknown" "M" "123" "N/A" .null).single_core == "N/A")) = true ∧
      (pyIsdigit (Record.mk "Unknown" "M" "123" "N/A" .null).multi_core ||
        ((Record.mk "Unknown" "M" "123" "N/A" .null).multi_core == "N/A")) = true) :=
  scores_span_text_or_na_amended ⟨200, ⟨[⟨none, some ["M"], [" 123 "]⟩], none⟩⟩
    ⟨"Unknown", "M", "123", "N/A", .null⟩ (by decide)

/-- C9 counterexample: a collection whose first record does not carry the
url key while its second does.  The code inspects only `benchmarks[0]`, so
the header omits the url column even though a record carries a url, and
`DictWriter` then raises `ValueError` on the second record's extra key. -/
theorem csv_url_column_counterexample :
    csv_fieldnames [⟨"A", "B", "1", "2", .absent⟩, ⟨"C", "D", "3", "4", .val "u"⟩] =
      csv_base_fields ∧
    (⟨"C", "D", "3", "4", UrlField.val "u"⟩ : Record).url.isPresent = true ∧
    create_csv_output [⟨"A", "B", "1", "2", .absent⟩, ⟨"C", "D", "3", "4", .val "u"⟩] =
      .error "ValueError" :=
  ⟨by decide, by decide, rfl⟩

/-- C9 amended: the CSV serializer writes the url column if and only if
the collection is nonempty and its FIRST record carries the url key; when
the url column is absent the header is exactly
`system,model,single_core,multi_core`. -/
theorem csv_url_column_amended (bs : List Record) :
    ("url" ∈ csv_fieldnames bs ↔ ∃ b, bs.head? = some b ∧ b.url.isPresent = true) ∧
    ("url" ∉ csv_fieldnames bs → csv_fieldnames bs = csv_base_fields) := by
  cases bs with
  | nil =>
    refine ⟨?_, fun _ => rfl⟩
    simp only [List.head?_nil]
    constructor
    · intro h
      exact absurd h (by decide)
    · rintro ⟨b, hb, -⟩
      cases hb
  | cons b bt =>
    by_cases h : b.url.isPresent = true
    · refine ⟨?_, ?_⟩
      · simp only [csv_fieldnames, h, if_pos, List.head?_cons]
        constructor
        · intro _
          exact ⟨b, rfl, h⟩
        · intro _
          decide
      · intro hn
        exfalso
        apply hn
        simp only [csv_fieldnames, h, if_pos]
        decide
    · refine ⟨?_, ?_⟩
      · simp only [csv_fieldnames, h, if_neg, List.head?_cons]
        constructor
        · intro hmem
          exact absurd hmem (by decide)
        · rintro ⟨b', hb', hp⟩
          cases hb'
          exact absurd hp h
      · intro _
        simp [csv_fieldnames, h]

/-- Witness for C9 amended: a first record carrying a url puts the url
column in the header; a collection whose only record lacks the key keeps
the exact four-column header. -/
theorem csv_url_column_amended_witness :
    ("url" ∈ csv_fieldnames [⟨"A", "B", "1", "2", .val "u"⟩] ↔
      ∃ b, ([(⟨"A", "B", "1", "2", .val "u"⟩ : Record)] : List Record).head? = some b ∧
        b.url.isPresent = true) ∧
    csv_fieldnames [⟨"A", "B", "1", "2", UrlField.absent⟩] = csv_base_fields :=
  ⟨(csv_url_column_amended [⟨"A", "B", "1", "2", .val "u"⟩]).1,
   (csv_url_column_amended [⟨"A", "B", "1", "2", UrlField.absent⟩]).2 (by decide)⟩

end GeekScraper
